import Mathlib

/-!
# Verification of the Titanic token-verification subsystem

Shallow embedding of `src/titanic/src/auth.rs` and `src/titanic/src/error.rs`.

Stateful pieces (the two key caches) become explicit state passing over
`AuthState`.  Outbound HTTP fetches become an oracle value (`FetchOutcome`)
describing what the network returned, consumed at the single point the code
performs the request.  The `jsonwebtoken` crate's `decode_header` /
`decode::<T>` calls are modelled over an abstract token value (`TokenModel`)
whose fields record the outcome of the cryptographic and parsing steps that
Lean cannot perform natively: whether the header parses, the JSON payload
fields, and which PEM key (if any) verifies the RS256 signature.  Every
function mirrors the control flow and the error strings of the Rust source.
-/

/-- `FirebaseUser` from auth.rs: the normalized identity returned on success. -/
structure FirebaseUser where
  uid : String
  email : String
  email_verified : Bool
  name : Option String
  picture : Option String
  deriving Repr, DecidableEq

/-- `FirebaseClaims` from auth.rs: nested `firebase` object of an ID-token
payload. `identities` is a required field, `sign_in_provider` optional. -/
structure FirebaseClaims where
  sign_in_provider : Option String
  identities : List (String × List String)
  deriving Repr, DecidableEq

/-- `JwtPayload` from auth.rs: the typed claims of a Firebase ID token. All
fields except `name` and `picture` are required by serde deserialization. -/
structure JwtPayload where
  iss : String
  aud : String
  auth_time : Nat
  user_id : String
  sub : String
  iat : Nat
  exp : Nat
  email : String
  email_verified : Bool
  name : Option String
  picture : Option String
  firebase : FirebaseClaims
  deriving Repr, DecidableEq

/-- `CustomTokenPayload` from auth.rs: the typed claims of a custom token.
All six fields are required. -/
structure CustomTokenPayload where
  iss : String
  aud : String
  exp : Nat
  iat : Nat
  sub : String
  uid : String
  deriving Repr, DecidableEq

/-- `AppError` from error.rs. -/
inductive AppError where
  | AuthError (msg : String)
  | UploadError (msg : String)
  | ConfigError (msg : String)
  | InternalError (msg : String)
  deriving Repr, DecidableEq

/-- The parts of `Config` (config.rs) consumed by `FirebaseAuth`. -/
structure Config where
  firebase_project_id : String
  is_dev : Bool
  deriving Repr, DecidableEq

/-- The mutable state of a `FirebaseAuth` value: the two key caches
(`HashMap<String, String>` in the source, modelled as association lists from
kid to PEM string). -/
structure AuthState where
  id_token_keys : List (String × String)
  custom_token_keys : List (String × String)
  deriving Repr, DecidableEq

/-- `HashMap::get` on a kid-to-PEM map. -/
def findKey (m : List (String × String)) (k : String) : Option String :=
  match m.find? (fun p => p.1 == k) with
  | some p => some p.2
  | none => none

/-- Outcome of reading and parsing the body of a key-fetch response:
`response.text()` can fail, and the text can fail to parse as a
`HashMap<String, String>`. -/
inductive BodyText where
  | readError (e : String)
  | unparsable (e : String)
  | keyMap (keys : List (String × String))
  deriving Repr, DecidableEq

/-- Oracle describing what one outbound key fetch returned: either the
request itself failed, or a response arrived with a status code and a body. -/
inductive FetchOutcome where
  | sendError (e : String)
  | response (status : Nat) (body : BodyText)
  deriving Repr, DecidableEq

/-- `FirebaseAuth::refresh_id_token_keys`.  Returns the call's result and the
state after the call; on every failure the cached map is untouched, on
success `id_token_keys` is wholesale-replaced by the fetched map. -/
def refresh_id_token_keys (fetch : FetchOutcome) (s : AuthState) :
    Except AppError Unit × AuthState :=
  match fetch with
  | .sendError e =>
      (.error (.AuthError ("Failed to fetch ID token keys: " ++ e)), s)
  | .response status body =>
      if 200 ≤ status ∧ status < 300 then
        match body with
        | .readError e =>
            (.error (.AuthError ("Failed to read response: " ++ e)), s)
        | .unparsable e =>
            (.error (.AuthError ("Failed to parse ID token keys: " ++ e)), s)
        | .keyMap keys_map =>
            (.ok (), { s with id_token_keys := keys_map })
      else
        (.error (.AuthError "Failed to fetch ID token keys from Firebase"), s)

/-- `FirebaseAuth::refresh_custom_token_keys`: same shape over the
custom-token cache, with its own error strings. -/
def refresh_custom_token_keys (fetch : FetchOutcome) (s : AuthState) :
    Except AppError Unit × AuthState :=
  match fetch with
  | .sendError e =>
      (.error (.AuthError ("Failed to fetch custom token keys: " ++ e)), s)
  | .response status body =>
      if 200 ≤ status ∧ status < 300 then
        match body with
        | .readError e =>
            (.error (.AuthError ("Failed to read response: " ++ e)), s)
        | .unparsable e =>
            (.error (.AuthError ("Failed to parse custom token keys: " ++ e)), s)
        | .keyMap keys_map =>
            (.ok (), { s with custom_token_keys := keys_map })
      else
        (.error (.AuthError "Failed to fetch custom token keys from Firebase"), s)

/-- `FirebaseAuth::get_id_token_key`.  The `Nat` component counts how many
refresh (network fetch) attempts the call performed. -/
def get_id_token_key (kid : String) (fetch : FetchOutcome) (s : AuthState) :
    Except AppError String × AuthState × Nat :=
  match findKey s.id_token_keys kid with
  | some key => (.ok key, s, 0)
  | none =>
      match refresh_id_token_keys fetch s with
      | (.error e, s') => (.error e, s', 1)
      | (.ok _, s') =>
          match findKey s'.id_token_keys kid with
          | some key => (.ok key, s', 1)
          | none =>
              (.error (.AuthError "ID token key not found after refresh"), s', 1)

/-- `FirebaseAuth::get_custom_token_key`. -/
def get_custom_token_key (kid : String) (fetch : FetchOutcome) (s : AuthState) :
    Except AppError String × AuthState × Nat :=
  match findKey s.custom_token_keys kid with
  | some key => (.ok key, s, 0)
  | none =>
      match refresh_custom_token_keys fetch s with
      | (.error e, s') => (.error e, s', 1)
      | (.ok _, s') =>
          match findKey s'.custom_token_keys kid with
          | some key => (.ok key, s', 1)
          | none =>
              (.error (.AuthError "Custom token key not found after refresh"), s', 1)

/-- The JWT header as `jsonwebtoken::decode_header` returns it: the signing
algorithm name and an optional key id. -/
structure JwtHeader where
  alg : String
  kid : Option String
  deriving Repr, DecidableEq

/-- The JSON form of the nested `firebase` claim object, before typed
deserialization: `identities` may be missing. -/
structure FirebaseClaimsJson where
  sign_in_provider : Option String
  identities : Option (List (String × List String))
  deriving Repr, DecidableEq

/-- The JSON object carried in a token's payload segment, before typed
deserialization: every field may be present or absent. -/
structure PayloadJson where
  iss : Option String
  aud : Option String
  auth_time : Option Nat
  user_id : Option String
  sub : Option String
  iat : Option Nat
  exp : Option Nat
  uid : Option String
  email : Option String
  email_verified : Option Bool
  name : Option String
  picture : Option String
  firebase : Option FirebaseClaimsJson
  deriving Repr, DecidableEq

/-- Abstract model of a bearer-token string, recording the outcomes of the
steps the `jsonwebtoken` crate performs on it: header parsing, payload JSON
parsing, and signature verification.  `sigKey` is the PEM public key (if any)
against which the token's RS256 signature verifies. -/
structure TokenModel where
  header : Except String JwtHeader
  payload : Except String PayloadJson
  sigKey : Option String
  deriving Repr

/-- serde deserialization of a payload into `JwtPayload`: every
non-`Option` field of the struct must be present, checked in declaration
order; `name` and `picture` pass through as options. -/
def parseJwtPayload (p : PayloadJson) : Except String JwtPayload :=
  match p.iss with
  | none => .error "missing field iss"
  | some iss =>
  match p.aud with
  | none => .error "missing field aud"
  | some aud =>
  match p.auth_time with
  | none => .error "missing field auth_time"
  | some auth_time =>
  match p.user_id with
  | none => .error "missing field user_id"
  | some user_id =>
  match p.sub with
  | none => .error "missing field sub"
  | some sub =>
  match p.iat with
  | none => .error "missing field iat"
  | some iat =>
  match p.exp with
  | none => .error "missing field exp"
  | some exp =>
  match p.email with
  | none => .error "missing field email"
  | some email =>
  match p.email_verified with
  | none => .error "missing field email_verified"
  | some email_verified =>
  match p.firebase with
  | none => .error "missing field firebase"
  | some fb =>
  match fb.identities with
  | none => .error "missing field identities"
  | some identities =>
      .ok { iss := iss, aud := aud, auth_time := auth_time, user_id := user_id,
            sub := sub, iat := iat, exp := exp, email := email,
            email_verified := email_verified, name := p.name,
            picture := p.picture,
            firebase := { sign_in_provider := fb.sign_in_provider,
                          identities := identities } }

/-- serde deserialization of a payload into `CustomTokenPayload`: all six
fields are required. -/
def parseCustomPayload (p : PayloadJson) : Except String CustomTokenPayload :=
  match p.iss with
  | none => .error "missing field iss"
  | some iss =>
  match p.aud with
  | none => .error "missing field aud"
  | some aud =>
  match p.exp with
  | none => .error "missing field exp"
  | some exp =>
  match p.iat with
  | none => .error "missing field iat"
  | some iat =>
  match p.sub with
  | none => .error "missing field sub"
  | some sub =>
  match p.uid with
  | none => .error "missing field uid"
  | some uid =>
      .ok { iss := iss, aud := aud, exp := exp, iat := iat, sub := sub, uid := uid }

/-- The claim checks `jsonwebtoken` performs for the `Validation` both paths
configure: `validate_exp` (with leeway), then audience membership, then
issuer membership.  `iat` is not validated by the crate. -/
def validateClaims (auds isss : List String) (leeway now : Nat)
    (exp : Nat) (aud iss : String) : Except String Unit :=
  if exp + leeway < now then .error "ExpiredSignature"
  else if ¬ auds.contains aud then .error "InvalidAudience"
  else if ¬ isss.contains iss then .error "InvalidIssuer"
  else .ok ()

/-- `jsonwebtoken::decode::<T>` for a given typed deserializer: re-parse the
header, check the algorithm is RS256, verify the signature against the
supplied PEM, deserialize the payload claims, validate them. -/
def decodeToken {α : Type} (parse : PayloadJson → Except String α)
    (expOf : α → Nat) (audOf issOf : α → String)
    (pem : String) (auds isss : List String) (leeway now : Nat)
    (tok : TokenModel) : Except String α :=
  match tok.header with
  | .error e => .error e
  | .ok h =>
      if h.alg ≠ "RS256" then .error "InvalidAlgorithm"
      else if tok.sigKey ≠ some pem then .error "InvalidSignature"
      else
        match tok.payload with
        | .error e => .error e
        | .ok p =>
            match parse p with
            | .error e => .error e
            | .ok c =>
                match validateClaims auds isss leeway now (expOf c) (audOf c) (issOf c) with
                | .error e => .error e
                | .ok _ => .ok c

/-- `DecodingKey::from_rsa_pem` as an oracle: which PEM strings parse as an
RSA public key (error carries the library's message). -/
abbrev PemParse := String → Except String Unit

/-- The fixed audience the custom-token path accepts. -/
def identityToolkitAud : String :=
  "https://identitytoolkit.googleapis.com/google.identity.identitytoolkit.v1.IdentityToolkit"

/-- `FirebaseAuth::verify_id_token`.  `now` is the clock the claim validation
reads; the `Nat` component counts network fetch attempts. -/
def verify_id_token (project_id : String) (pemParse : PemParse)
    (tok : TokenModel) (fetch : FetchOutcome) (now : Nat) (s : AuthState) :
    Except AppError FirebaseUser × AuthState × Nat :=
  match tok.header with
  | .error e => (.error (.AuthError ("Invalid token header: " ++ e)), s, 0)
  | .ok h =>
      match h.kid with
      | none => (.error (.AuthError "No key ID in token"), s, 0)
      | some kid =>
          match get_id_token_key kid fetch s with
          | (.error e, s', n) => (.error e, s', n)
          | (.ok public_key, s', n) =>
              match pemParse public_key with
              | .error e =>
                  (.error (.AuthError ("Invalid public key: " ++ e)), s', n)
              | .ok _ =>
                  match decodeToken parseJwtPayload JwtPayload.exp JwtPayload.aud
                      JwtPayload.iss public_key [project_id]
                      ["https://securetoken.google.com/" ++ project_id] 60 now tok with
                  | .error e =>
                      (.error (.AuthError ("Token verification failed: " ++ e)), s', n)
                  | .ok claims =>
                      (.ok { uid := claims.user_id, email := claims.email,
                             email_verified := claims.email_verified,
                             name := claims.name, picture := claims.picture }, s', n)

/-- `FirebaseAuth::verify_custom_token`. -/
def verify_custom_token (project_id : String) (pemParse : PemParse)
    (tok : TokenModel) (fetch : FetchOutcome) (now : Nat) (s : AuthState) :
    Except AppError FirebaseUser × AuthState × Nat :=
  match tok.header with
  | .error e => (.error (.AuthError ("Invalid token header: " ++ e)), s, 0)
  | .ok h =>
      match h.kid with
      | none => (.error (.AuthError "No key ID in custom token"), s, 0)
      | some kid =>
          match get_custom_token_key kid fetch s with
          | (.error e, s', n) => (.error e, s', n)
          | (.ok public_key, s', n) =>
              match pemParse public_key with
              | .error e =>
                  (.error (.AuthError ("Invalid public key: " ++ e)), s', n)
              | .ok _ =>
                  match decodeToken parseCustomPayload CustomTokenPayload.exp
                      CustomTokenPayload.aud CustomTokenPayload.iss public_key
                      [identityToolkitAud]
                      [project_id ++ "@firebase-adminsdk.iam.gserviceaccount.com"] 60 now tok with
                  | .error e =>
                      (.error (.AuthError ("Custom token verification failed: " ++ e)), s', n)
                  | .ok claims =>
                      (.ok { uid := claims.uid,
                             email := claims.uid ++ "@custom.token",
                             email_verified := true,
                             name := none, picture := none }, s', n)

/-- `FirebaseAuth::verify_firebase_token`: try the ID-token path; on success
return its identity, on any failure run the custom-token path on the
resulting state and return that attempt's result. -/
def verify_firebase_token (project_id : String) (pemParse : PemParse)
    (tok : TokenModel) (fetchId fetchCustom : FetchOutcome) (now : Nat)
    (s : AuthState) : Except AppError FirebaseUser × AuthState × Nat :=
  match verify_id_token project_id pemParse tok fetchId now s with
  | (.ok user, s', n) => (.ok user, s', n)
  | (.error _, s', n) =>
      match verify_custom_token project_id pemParse tok fetchCustom now s' with
      | (r, s'', m) => (r, s'', n + m)

/-- A header value as axum sees it: `HeaderValue::to_str` succeeds only on
visible-ASCII values. -/
inductive HeaderValue where
  | valid (s : String)
  | invalid
  deriving Repr, DecidableEq

/-- The request's header map. -/
abbrev HeaderMap := List (String × HeaderValue)

/-- `headers.get("Authorization").and_then(to_str().ok())`. -/
def getAuthHeader (headers : HeaderMap) : Option String :=
  match headers.find? (fun p => p.1 == "Authorization") with
  | some (_, .valid s) => some s
  | _ => none

/-- `auth_header.starts_with("Bearer ")`, expressed over the character list;
for the all-ASCII pattern `"Bearer "` this coincides with the byte-wise
check the Rust standard library performs. -/
def strStartsWith (v pre : String) : Bool :=
  pre.data.isPrefixOf v.data

/-- `&auth_header[7..]`: the Rust code slices off the 7-byte `"Bearer "`
prefix; since that prefix is ASCII this equals dropping 7 characters. -/
def strDropChars (v : String) (n : Nat) : String :=
  String.mk (v.data.drop n)

/-- The fixed sentinel identity returned in development mode. -/
def devUser : FirebaseUser :=
  { uid := "dev-user", email := "dev@example.com", email_verified := true,
    name := some "Dev User", picture := none }

/-- `FirebaseAuth::verify_token`: development-mode bypass, then
Authorization-header extraction and `Bearer ` stripping, then delegation to
`verify_firebase_token`.  `interp` maps the extracted token string to its
model. -/
def verify_token (cfg : Config) (headers : HeaderMap)
    (interp : String → TokenModel) (pemParse : PemParse)
    (fetchId fetchCustom : FetchOutcome) (now : Nat) (s : AuthState) :
    Except AppError FirebaseUser × AuthState × Nat :=
  if cfg.is_dev then
    (.ok devUser, s, 0)
  else
    match getAuthHeader headers with
    | none => (.error (.AuthError "No authorization header"), s, 0)
    | some auth_header =>
        if strStartsWith auth_header "Bearer " then
          verify_firebase_token cfg.firebase_project_id pemParse
            (interp (strDropChars auth_header 7)) fetchId fetchCustom now s
        else
          (.error (.AuthError "Invalid authorization header format"), s, 0)

/-- The caller-observable HTTP response `AppError::into_response` builds:
a status code and the value of the body's single `error` field. -/
structure HttpResponse where
  status : Nat
  errorField : String
  deriving Repr, DecidableEq

/-- `AppError::into_response` from error.rs: the variant picks the status and
the variant's message string is placed verbatim in the JSON body. -/
def AppError.into_response : AppError → HttpResponse
  | .AuthError msg => { status := 401, errorField := msg }
  | .UploadError msg => { status := 400, errorField := msg }
  | .ConfigError msg => { status := 500, errorField := msg }
  | .InternalError msg => { status := 500, errorField := msg }

/-! ### Concrete instances used by witnesses and counterexamples -/

/-- A PEM oracle under which every string parses as an RSA public key. -/
def pemOkAll : PemParse := fun _ => .ok ()

/-- A well-formed token: RS256 header carrying `kid`, parsed payload `p`,
signature verifying against `pem`. -/
def tokenAt (kid : String) (p : PayloadJson) (pem : String) : TokenModel :=
  { header := .ok { alg := "RS256", kid := some kid },
    payload := .ok p, sigKey := some pem }

/-- A custom-token payload with valid issuer/audience for project `pid`. -/
def customPayloadAt (pid uid : String) (exp iat : Nat) : PayloadJson :=
  { iss := some (pid ++ "@firebase-adminsdk.iam.gserviceaccount.com"),
    aud := some identityToolkitAud,
    auth_time := none, user_id := none, sub := some uid,
    iat := some iat, exp := some exp, uid := some uid,
    email := none, email_verified := none, name := none, picture := none,
    firebase := none }

/-- An ID-token payload with valid issuer/audience for project `pid`; the
`email` field is a parameter so its absence can be exercised. -/
def idPayloadAt (pid : String) (exp iat : Nat) (email : Option String) : PayloadJson :=
  { iss := some ("https://securetoken.google.com/" ++ pid),
    aud := some pid,
    auth_time := some iat, user_id := some "u1", sub := some "u1",
    iat := some iat, exp := some exp, uid := none,
    email := email, email_verified := some true, name := none, picture := none,
    firebase := some { sign_in_provider := some "password", identities := some [] } }

/-- A cache state holding a single key `("K1", "PEM1")` in both caches. -/
def stK1 : AuthState :=
  { id_token_keys := [("K1", "PEM1")], custom_token_keys := [("K1", "PEM1")] }

/-- A token string whose header fails to parse with library message `e`. -/
def headerErrToken (e : String) : TokenModel :=
  { header := .error e, payload := .error e, sigKey := none }

/-- One full (non-dev) verification run over a syntactically broken token
whose header-parse failure carries library message `e`; only the returned
value is kept. -/
def c9run (e : String) : Except AppError FirebaseUser :=
  (verify_token { firebase_project_id := "p", is_dev := false }
     [("Authorization", HeaderValue.valid "Bearer t")] (fun _ => headerErrToken e)
     pemOkAll (.sendError "net") (.sendError "net") 0
     { id_token_keys := [], custom_token_keys := [] }).1

/-- The body string the HTTP caller sees for a verification outcome (`none`
when verification succeeded). -/
def bodyOf : Except AppError FirebaseUser → Option String
  | .error e => some e.into_response.errorField
  | .ok _ => none

/-! ### Claim theorems -/

/-- C1: If the development-mode flag is set, `verify_token` returns the fixed
sentinel identity (uid "dev-user", email "dev@example.com",
email_verified = true) for every header map (including an empty one), with
the cache state untouched and zero network fetches — no header parsing,
token decoding, key lookup or key fetch influences the result. -/
theorem verify_token_dev_bypass (cfg : Config) (headers : HeaderMap)
    (interp : String → TokenModel) (pemParse : PemParse)
    (fetchId fetchCustom : FetchOutcome) (now : Nat) (s : AuthState)
    (hdev : cfg.is_dev = true) :
    verify_token cfg headers interp pemParse fetchId fetchCustom now s
      = (.ok devUser, s, 0)
    ∧ devUser.uid = "dev-user" ∧ devUser.email = "dev@example.com"
    ∧ devUser.email_verified = true := by
  refine ⟨?_, rfl, rfl, rfl⟩
  simp [verify_token, hdev]

/-- Witness for C1 at a concrete input: dev-mode config, empty header map. -/
theorem verify_token_dev_bypass_witness :
    ({ firebase_project_id := "p", is_dev := true } : Config).is_dev = true ∧
    (verify_token { firebase_project_id := "p", is_dev := true } []
        (fun _ => headerErrToken "x") pemOkAll (.sendError "x") (.sendError "x")
        0 { id_token_keys := [], custom_token_keys := [] }
      = (.ok devUser, { id_token_keys := [], custom_token_keys := [] }, 0)
    ∧ devUser.uid = "dev-user" ∧ devUser.email = "dev@example.com"
    ∧ devUser.email_verified = true) :=
  ⟨rfl, verify_token_dev_bypass _ _ _ _ _ _ _ _ rfl⟩

/-- C4: outside development mode, whenever the Authorization header value is
present (and readable as a string) but lacks the `Bearer ` prefix,
`verify_token` fails with the malformed-header authentication error,
independent of the token contents, the oracles, the clock and the cache. -/
theorem verify_token_non_bearer (cfg : Config) (headers : HeaderMap)
    (interp : String → TokenModel) (pemParse : PemParse)
    (fetchId fetchCustom : FetchOutcome) (now : Nat) (s : AuthState)
    (v : String) (hdev : cfg.is_dev = false)
    (hget : getAuthHeader headers = some v)
    (hpre : strStartsWith v "Bearer " = false) :
    verify_token cfg headers interp pemParse fetchId fetchCustom now s
      = (.error (.AuthError "Invalid authorization header format"), s, 0) := by
  simp [verify_token, hdev, hget, hpre]

/-- Witness for C4 at a concrete input: an `Authorization: Basic x` header. -/
theorem verify_token_non_bearer_witness :
    ({ firebase_project_id := "p", is_dev := false } : Config).is_dev = false ∧
    getAuthHeader [("Authorization", HeaderValue.valid "Basic x")] = some "Basic x" ∧
    strStartsWith "Basic x" "Bearer " = false ∧
    verify_token { firebase_project_id := "p", is_dev := false }
        [("Authorization", HeaderValue.valid "Basic x")]
        (fun _ => headerErrToken "x") pemOkAll (.sendError "x") (.sendError "x")
        0 stK1
      = (.error (.AuthError "Invalid authorization header format"), stK1, 0) :=
  ⟨rfl, rfl, by decide,
   verify_token_non_bearer _ _ _ _ _ _ _ _ "Basic x" rfl rfl (by decide)⟩

/-- C5: every failing refresh — request error, non-2xx status, unreadable
body, or unparsable body — returns an error and leaves the previously cached
key map exactly as it was, for both key kinds; moreover any erroring refresh
whatsoever leaves the state untouched. -/
theorem refresh_failure_preserves_cache (s : AuthState) (e : String)
    (status : Nat) (hbad : ¬ (200 ≤ status ∧ status < 300))
    (okStatus : Nat) (h2 : 200 ≤ okStatus) (h3 : okStatus < 300)
    (body : BodyText) :
    refresh_id_token_keys (.sendError e) s
      = (.error (.AuthError ("Failed to fetch ID token keys: " ++ e)), s)
    ∧ refresh_custom_token_keys (.sendError e) s
      = (.error (.AuthError ("Failed to fetch custom token keys: " ++ e)), s)
    ∧ refresh_id_token_keys (.response status body) s
      = (.error (.AuthError "Failed to fetch ID token keys from Firebase"), s)
    ∧ refresh_custom_token_keys (.response status body) s
      = (.error (.AuthError "Failed to fetch custom token keys from Firebase"), s)
    ∧ refresh_id_token_keys (.response okStatus (.readError e)) s
      = (.error (.AuthError ("Failed to read response: " ++ e)), s)
    ∧ refresh_custom_token_keys (.response okStatus (.readError e)) s
      = (.error (.AuthError ("Failed to read response: " ++ e)), s)
    ∧ refresh_id_token_keys (.response okStatus (.unparsable e)) s
      = (.error (.AuthError ("Failed to parse ID token keys: " ++ e)), s)
    ∧ refresh_custom_token_keys (.response okStatus (.unparsable e)) s
      = (.error (.AuthError ("Failed to parse custom token keys: " ++ e)), s)
    ∧ (∀ fetch err s', refresh_id_token_keys fetch s = (.error err, s') → s' = s)
    ∧ (∀ fetch err s', refresh_custom_token_keys fetch s = (.error err, s') → s' = s) := by
  refine ⟨rfl, rfl, ?_, ?_, ?_, ?_, ?_, ?_, ?_, ?_⟩
  · simp [refresh_id_token_keys, hbad]
  · simp [refresh_custom_token_keys, hbad]
  · simp [refresh_id_token_keys, h2, h3]
  · simp [refresh_custom_token_keys, h2, h3]
  · simp [refresh_id_token_keys, h2, h3]
  · simp [refresh_custom_token_keys, h2, h3]
  · intro fetch err s' h
    cases fetch with
    | sendError msg => simp [refresh_id_token_keys] at h; exact h.2.symm
    | response st body' =>
        simp only [refresh_id_token_keys] at h
        split at h
        · cases body' <;> simp_all
        · injection h with h1 h2; exact h2.symm
  · intro fetch err s' h
    cases fetch with
    | sendError msg => simp [refresh_custom_token_keys] at h; exact h.2.symm
    | response st body' =>
        simp only [refresh_custom_token_keys] at h
        split at h
        · cases body' <;> simp_all
        · injection h with h1 h2; exact h2.symm

/-- Witness for C5 at concrete inputs: status 500 as the bad status, 200 as
the good one, over the single-key cache. -/
theorem refresh_failure_preserves_cache_witness :
    (¬ (200 ≤ 500 ∧ 500 < 300)) ∧ 200 ≤ 200 ∧ 200 < 300 ∧
    (refresh_id_token_keys (.sendError "timeout") stK1
      = (.error (.AuthError ("Failed to fetch ID token keys: " ++ "timeout")), stK1)) :=
  ⟨by decide, by decide, by decide,
   (refresh_failure_preserves_cache stK1 "timeout" 500 (by decide) 200
      (by decide) (by decide) (.readError "eof")).1⟩

/-- C6: a refresh that succeeds (2xx status, parsable body) wholesale-replaces
the affected cached key map with the freshly fetched mapping: afterwards the
cache for that kind equals exactly the fetched mapping (so every lookup in it
agrees with the fetched mapping, and no pre-refresh entry survives unless it
is also fetched), while the other kind's cache is untouched. -/
theorem refresh_success_replaces_cache (s : AuthState)
    (keys : List (String × String)) (status : Nat)
    (h2 : 200 ≤ status) (h3 : status < 300) :
    refresh_id_token_keys (.response status (.keyMap keys)) s
      = (.ok (), { id_token_keys := keys, custom_token_keys := s.custom_token_keys })
    ∧ refresh_custom_token_keys (.response status (.keyMap keys)) s
      = (.ok (), { id_token_keys := s.id_token_keys, custom_token_keys := keys })
    ∧ (∀ k, findKey ((refresh_id_token_keys (.response status (.keyMap keys)) s).2.id_token_keys) k
        = findKey keys k)
    ∧ (∀ k, findKey ((refresh_custom_token_keys (.response status (.keyMap keys)) s).2.custom_token_keys) k
        = findKey keys k) := by
  refine ⟨?_, ?_, ?_, ?_⟩ <;>
    simp [refresh_id_token_keys, refresh_custom_token_keys, h2, h3]

/-- Witness for C6 at a concrete input: replacing the `K1` cache with a
disjoint fetched map at status 200. -/
theorem refresh_success_replaces_cache_witness :
    200 ≤ 200 ∧ 200 < 300 ∧
    (refresh_id_token_keys (.response 200 (.keyMap [("K2", "PEM2")])) stK1
      = (.ok (), { id_token_keys := [("K2", "PEM2")],
                   custom_token_keys := stK1.custom_token_keys })) :=
  ⟨by decide, by decide,
   (refresh_success_replaces_cache stK1 [("K2", "PEM2")] 200
      (by decide) (by decide)).1⟩

/-- C3: for either token kind, a key lookup whose kid is cached returns that
PEM immediately with no refresh and no state change; a lookup whose kid is
absent performs exactly one refresh, and if the kid is still absent from the
refreshed map the call fails with the terminal key-not-found error — no
second refresh is attempted. -/
theorem get_key_single_refresh (kid : String) (fetch : FetchOutcome)
    (s : AuthState) :
    (∀ key, findKey s.id_token_keys kid = some key →
        get_id_token_key kid fetch s = (.ok key, s, 0))
    ∧ (findKey s.id_token_keys kid = none →
        (get_id_token_key kid fetch s).2.2 = 1
        ∧ ∀ s', refresh_id_token_keys fetch s = (.ok (), s') →
            findKey s'.id_token_keys kid = none →
            get_id_token_key kid fetch s
              = (.error (.AuthError "ID token key not found after refresh"), s', 1))
    ∧ (∀ key, findKey s.custom_token_keys kid = some key →
        get_custom_token_key kid fetch s = (.ok key, s, 0))
    ∧ (findKey s.custom_token_keys kid = none →
        (get_custom_token_key kid fetch s).2.2 = 1
        ∧ ∀ s', refresh_custom_token_keys fetch s = (.ok (), s') →
            findKey s'.custom_token_keys kid = none →
            get_custom_token_key kid fetch s
              = (.error (.AuthError "Custom token key not found after refresh"), s', 1)) := by
  refine ⟨?_, ?_, ?_, ?_⟩
  · intro key hk
    simp [get_id_token_key, hk]
  · intro hmiss
    constructor
    · simp only [get_id_token_key, hmiss]
      rcases h : refresh_id_token_keys fetch s with ⟨r, s'⟩
      cases r with
      | error e => rfl
      | ok u =>
          cases u
          cases h2 : findKey s'.id_token_keys kid <;> simp [h2]
    · intro s' hr hmiss'
      simp [get_id_token_key, hmiss, hr, hmiss']
  · intro key hk
    simp [get_custom_token_key, hk]
  · intro hmiss
    constructor
    · simp only [get_custom_token_key, hmiss]
      rcases h : refresh_custom_token_keys fetch s with ⟨r, s'⟩
      cases r with
      | error e => rfl
      | ok u =>
          cases u
          cases h2 : findKey s'.custom_token_keys kid <;> simp [h2]
    · intro s' hr hmiss'
      simp [get_custom_token_key, hmiss, hr, hmiss']

/-- Witness for C3 at a concrete input: the cached kid `K1` is returned with
no refresh from the single-key cache. -/
theorem get_key_single_refresh_witness :
    findKey stK1.id_token_keys "K1" = some "PEM1" ∧
    get_id_token_key "K1" (.sendError "net") stK1 = (.ok "PEM1", stK1, 0) :=
  ⟨by decide, (get_key_single_refresh "K1" (.sendError "net") stK1).1 "PEM1" (by decide)⟩

/-- C2: `verify_firebase_token` is a fixed two-phase attempt: when the
ID-token attempt succeeds its identity is returned unchanged; when it fails
the custom-token attempt runs on the resulting state and the value handed to
the caller is exactly that second attempt's result — the first attempt's
error never surfaces. -/
theorem verify_firebase_token_two_phase (project_id : String)
    (pemParse : PemParse) (tok : TokenModel)
    (fetchId fetchCustom : FetchOutcome) (now : Nat) (s : AuthState) :
    (∀ u s' n, verify_id_token project_id pemParse tok fetchId now s = (.ok u, s', n) →
        verify_firebase_token project_id pemParse tok fetchId fetchCustom now s
          = (.ok u, s', n))
    ∧ (∀ e s' n, verify_id_token project_id pemParse tok fetchId now s = (.error e, s', n) →
        (verify_firebase_token project_id pemParse tok fetchId fetchCustom now s).1
          = (verify_custom_token project_id pemParse tok fetchCustom now s').1
        ∧ (verify_firebase_token project_id pemParse tok fetchId fetchCustom now s).2.1
          = (verify_custom_token project_id pemParse tok fetchCustom now s').2.1) := by
  constructor
  · intro u s' n h
    simp [verify_firebase_token, h]
  · intro e s' n h
    simp only [verify_firebase_token, h]
    rcases hc : verify_custom_token project_id pemParse tok fetchCustom now s' with ⟨r, s'', m⟩
    simp

/-- Witness for C2 at a concrete input: the ID-token attempt fails (the kid
is not in the empty ID-key cache and the fetch errors), and the surfaced
result is the custom-token attempt's result. -/
theorem verify_firebase_token_two_phase_witness :
    (verify_id_token "p" pemOkAll
        (tokenAt "K1" (customPayloadAt "p" "abc123" 1060 940) "PEM1")
        (.sendError "net") 1000 { id_token_keys := [], custom_token_keys := [("K1", "PEM1")] }
      = (.error (.AuthError ("Failed to fetch ID token keys: " ++ "net")),
         { id_token_keys := [], custom_token_keys := [("K1", "PEM1")] }, 1))
    ∧ (verify_firebase_token "p" pemOkAll
        (tokenAt "K1" (customPayloadAt "p" "abc123" 1060 940) "PEM1")
        (.sendError "net") (.sendError "net") 1000
        { id_token_keys := [], custom_token_keys := [("K1", "PEM1")] }).1
      = (verify_custom_token "p" pemOkAll
          (tokenAt "K1" (customPayloadAt "p" "abc123" 1060 940) "PEM1")
          (.sendError "net") 1000
          { id_token_keys := [], custom_token_keys := [("K1", "PEM1")] }).1 :=
  ⟨rfl,
   ((verify_firebase_token_two_phase "p" pemOkAll
        (tokenAt "K1" (customPayloadAt "p" "abc123" 1060 940) "PEM1")
        (.sendError "net") (.sendError "net") 1000
        { id_token_keys := [], custom_token_keys := [("K1", "PEM1")] }).2
      (.AuthError ("Failed to fetch ID token keys: " ++ "net"))
      { id_token_keys := [], custom_token_keys := [("K1", "PEM1")] } 1 rfl).1⟩

/-- C7: a custom token whose RS256 signature verifies against the PEM cached
for its kid, and whose claims pass validation (audience equal to the
Identity-Toolkit constant, issuer equal to
`<project-id>@firebase-adminsdk.iam.gserviceaccount.com`, expiry and
issued-at within the 60-second leeway), verifies to
`Identity\x7buid = claims.uid, email = "<uid>@custom.token",
email_verified = true, name = none, picture = none\x7d`, with no cache
change and no fetch. -/
theorem verify_custom_token_success (project_id kid pem : String)
    (pemParse : PemParse) (p : PayloadJson) (c : CustomTokenPayload)
    (fetch : FetchOutcome) (now : Nat) (s : AuthState)
    (hcache : findKey s.custom_token_keys kid = some pem)
    (hpem : pemParse pem = .ok ())
    (hparse : parseCustomPayload p = .ok c)
    (haud : c.aud = identityToolkitAud)
    (hiss : c.iss = project_id ++ "@firebase-adminsdk.iam.gserviceaccount.com")
    (hexp : ¬ (c.exp + 60 < now))
    (_hiat : c.iat ≤ now + 60) :
    verify_custom_token project_id pemParse (tokenAt kid p pem) fetch now s
      = (.ok { uid := c.uid, email := c.uid ++ "@custom.token",
               email_verified := true, name := none, picture := none }, s, 0) := by
  simp only [verify_custom_token, tokenAt, get_custom_token_key, hcache, hpem,
    decodeToken, validateClaims, hparse]
  rw [if_neg (by simp), if_neg (by simp), if_neg hexp]
  rw [if_neg (by simp [haud]), if_neg (by simp [hiss])]

/-- Witness for C7 at a concrete input: uid `abc123`, exp 60 seconds ahead of
the clock, key `K1` cached. -/
theorem verify_custom_token_success_witness :
    findKey stK1.custom_token_keys "K1" = some "PEM1" ∧
    pemOkAll "PEM1" = .ok () ∧
    parseCustomPayload (customPayloadAt "proj" "abc123" 1060 1000)
      = .ok { iss := "proj" ++ "@firebase-adminsdk.iam.gserviceaccount.com",
              aud := identityToolkitAud, exp := 1060, iat := 1000,
              sub := "abc123", uid := "abc123" } ∧
    verify_custom_token "proj" pemOkAll
        (tokenAt "K1" (customPayloadAt "proj" "abc123" 1060 1000) "PEM1")
        (.sendError "net") 1000 stK1
      = (.ok { uid := "abc123", email := "abc123" ++ "@custom.token",
               email_verified := true, name := none, picture := none }, stK1, 0) :=
  ⟨rfl, rfl, rfl,
   verify_custom_token_success "proj" "K1" "PEM1" pemOkAll
     (customPayloadAt "proj" "abc123" 1060 1000)
     { iss := "proj" ++ "@firebase-adminsdk.iam.gserviceaccount.com",
       aud := identityToolkitAud, exp := 1060, iat := 1000,
       sub := "abc123", uid := "abc123" }
     (.sendError "net") 1000 stK1 rfl rfl rfl rfl rfl (by decide) (by decide)⟩

/-- Helper: a custom token with cached key, good signature and valid claims
verifies to the mapped identity (general form, shared by several results). -/
theorem verify_custom_token_ok_aux (project_id kid pem : String)
    (pemParse : PemParse) (p : PayloadJson) (c : CustomTokenPayload)
    (fetch : FetchOutcome) (now : Nat) (s : AuthState)
    (hcache : findKey s.custom_token_keys kid = some pem)
    (hpem : pemParse pem = .ok ())
    (hparse : parseCustomPayload p = .ok c)
    (haud : c.aud = identityToolkitAud)
    (hiss : c.iss = project_id ++ "@firebase-adminsdk.iam.gserviceaccount.com")
    (hexp : ¬ (c.exp + 60 < now)) :
    verify_custom_token project_id pemParse (tokenAt kid p pem) fetch now s
      = (.ok { uid := c.uid, email := c.uid ++ "@custom.token",
               email_verified := true, name := none, picture := none }, s, 0) := by
  simp only [verify_custom_token, tokenAt, get_custom_token_key, hcache, hpem,
    decodeToken, validateClaims, hparse]
  rw [if_neg (by simp), if_neg (by simp), if_neg hexp]
  rw [if_neg (by simp [haud]), if_neg (by simp [hiss])]

/-- Helper: a custom token that is expired beyond the 60-second leeway fails
with the expired-signature error, everything else being valid. -/
theorem verify_custom_token_expired_aux (project_id kid pem : String)
    (pemParse : PemParse) (p : PayloadJson) (c : CustomTokenPayload)
    (fetch : FetchOutcome) (now : Nat) (s : AuthState)
    (hcache : findKey s.custom_token_keys kid = some pem)
    (hpem : pemParse pem = .ok ())
    (hparse : parseCustomPayload p = .ok c)
    (hexp : c.exp + 60 < now) :
    verify_custom_token project_id pemParse (tokenAt kid p pem) fetch now s
      = (.error (.AuthError ("Custom token verification failed: " ++ "ExpiredSignature")), s, 0) := by
  simp only [verify_custom_token, tokenAt, get_custom_token_key, hcache, hpem,
    decodeToken, validateClaims, hparse]
  rw [if_neg (by simp), if_neg (by simp), if_pos hexp]

/-- Helper: an ID token with cached key, good signature and valid claims
verifies to the mapped identity. -/
theorem verify_id_token_ok_aux (project_id kid pem : String)
    (pemParse : PemParse) (p : PayloadJson) (c : JwtPayload)
    (fetch : FetchOutcome) (now : Nat) (s : AuthState)
    (hcache : findKey s.id_token_keys kid = some pem)
    (hpem : pemParse pem = .ok ())
    (hparse : parseJwtPayload p = .ok c)
    (haud : c.aud = project_id)
    (hiss : c.iss = "https://securetoken.google.com/" ++ project_id)
    (hexp : ¬ (c.exp + 60 < now)) :
    verify_id_token project_id pemParse (tokenAt kid p pem) fetch now s
      = (.ok { uid := c.user_id, email := c.email,
               email_verified := c.email_verified,
               name := c.name, picture := c.picture }, s, 0) := by
  simp only [verify_id_token, tokenAt, get_id_token_key, hcache, hpem,
    decodeToken, validateClaims, hparse]
  rw [if_neg (by simp), if_neg (by simp), if_neg hexp]
  rw [if_neg (by simp [haud]), if_neg (by simp [hiss])]

/-- Helper: an ID token expired beyond the 60-second leeway fails with the
expired-signature error, everything else being valid. -/
theorem verify_id_token_expired_aux (project_id kid pem : String)
    (pemParse : PemParse) (p : PayloadJson) (c : JwtPayload)
    (fetch : FetchOutcome) (now : Nat) (s : AuthState)
    (hcache : findKey s.id_token_keys kid = some pem)
    (hpem : pemParse pem = .ok ())
    (hparse : parseJwtPayload p = .ok c)
    (hexp : c.exp + 60 < now) :
    verify_id_token project_id pemParse (tokenAt kid p pem) fetch now s
      = (.error (.AuthError ("Token verification failed: " ++ "ExpiredSignature")), s, 0) := by
  simp only [verify_id_token, tokenAt, get_id_token_key, hcache, hpem,
    decodeToken, validateClaims, hparse]
  rw [if_neg (by simp), if_neg (by simp), if_pos hexp]

/-- C8: with the 60-second leeway of both validation paths, a token whose
`exp` lies 61 seconds before the clock fails as expired, while the otherwise
identical token whose `exp` lies 59 seconds before the clock passes the
expiry check (and, all other claims being valid, verifies), in the
custom-token path and in the ID-token path alike. -/
theorem expiry_boundary (now : Nat) (h61 : 61 ≤ now) :
    (verify_custom_token "proj" pemOkAll
        (tokenAt "K1" (customPayloadAt "proj" "abc123" (now - 61) (now - 61)) "PEM1")
        (.sendError "net") now stK1
      = (.error (.AuthError ("Custom token verification failed: " ++ "ExpiredSignature")), stK1, 0))
    ∧ (verify_custom_token "proj" pemOkAll
        (tokenAt "K1" (customPayloadAt "proj" "abc123" (now - 59) (now - 59)) "PEM1")
        (.sendError "net") now stK1
      = (.ok { uid := "abc123", email := "abc123" ++ "@custom.token",
               email_verified := true, name := none, picture := none }, stK1, 0))
    ∧ (verify_id_token "proj" pemOkAll
        (tokenAt "K1" (idPayloadAt "proj" (now - 61) (now - 61) (some "u1@example.com")) "PEM1")
        (.sendError "net") now stK1
      = (.error (.AuthError ("Token verification failed: " ++ "ExpiredSignature")), stK1, 0))
    ∧ (verify_id_token "proj" pemOkAll
        (tokenAt "K1" (idPayloadAt "proj" (now - 59) (now - 59) (some "u1@example.com")) "PEM1")
        (.sendError "net") now stK1
      = (.ok { uid := "u1", email := "u1@example.com",
               email_verified := true, name := none, picture := none }, stK1, 0)) := by
  refine ⟨?_, ?_, ?_, ?_⟩
  · exact verify_custom_token_expired_aux "proj" "K1" "PEM1" pemOkAll _
      { iss := "proj" ++ "@firebase-adminsdk.iam.gserviceaccount.com",
        aud := identityToolkitAud, exp := now - 61, iat := now - 61,
        sub := "abc123", uid := "abc123" }
      (.sendError "net") now stK1 rfl rfl rfl
      (by show (now - 61) + 60 < now; omega)
  · exact verify_custom_token_ok_aux "proj" "K1" "PEM1" pemOkAll _
      { iss := "proj" ++ "@firebase-adminsdk.iam.gserviceaccount.com",
        aud := identityToolkitAud, exp := now - 59, iat := now - 59,
        sub := "abc123", uid := "abc123" }
      (.sendError "net") now stK1 rfl rfl rfl rfl rfl
      (by show ¬ ((now - 59) + 60 < now); omega)
  · exact verify_id_token_expired_aux "proj" "K1" "PEM1" pemOkAll _
      { iss := "https://securetoken.google.com/" ++ "proj", aud := "proj",
        auth_time := now - 61, user_id := "u1", sub := "u1",
        iat := now - 61, exp := now - 61, email := "u1@example.com",
        email_verified := true, name := none, picture := none,
        firebase := { sign_in_provider := some "password", identities := [] } }
      (.sendError "net") now stK1 rfl rfl rfl
      (by show (now - 61) + 60 < now; omega)
  · exact verify_id_token_ok_aux "proj" "K1" "PEM1" pemOkAll _
      { iss := "https://securetoken.google.com/" ++ "proj", aud := "proj",
        auth_time := now - 59, user_id := "u1", sub := "u1",
        iat := now - 59, exp := now - 59, email := "u1@example.com",
        email_verified := true, name := none, picture := none,
        firebase := { sign_in_provider := some "password", identities := [] } }
      (.sendError "net") now stK1 rfl rfl rfl rfl rfl
      (by show ¬ ((now - 59) + 60 < now); omega)

/-- Witness for C8 at clock 1000. -/
theorem expiry_boundary_witness :
    61 ≤ 1000 ∧
    (verify_custom_token "proj" pemOkAll
        (tokenAt "K1" (customPayloadAt "proj" "abc123" (1000 - 61) (1000 - 61)) "PEM1")
        (.sendError "net") 1000 stK1
      = (.error (.AuthError ("Custom token verification failed: " ++ "ExpiredSignature")), stK1, 0)) :=
  ⟨by decide, (expiry_boundary 1000 (by decide)).1⟩

/-- Helper: a successful `parseJwtPayload` pins every required field of the
payload to `some`; in particular `email`, `email_verified`, `user_id`,
`auth_time` and `firebase` were all present. -/
theorem parse_jwt_ok_fields (p : PayloadJson) (c : JwtPayload)
    (h : parseJwtPayload p = .ok c) :
    p.user_id = some c.user_id ∧ p.auth_time = some c.auth_time
    ∧ p.email = some c.email ∧ p.email_verified = some c.email_verified
    ∧ ∃ fb, p.firebase = some fb := by
  unfold parseJwtPayload at h
  repeat' split at h
  all_goals simp_all
  all_goals (subst h; exact ⟨rfl, rfl, rfl, rfl⟩)

/-- Helper: a payload missing any of the required ID-token fields fails
typed deserialization. -/
theorem parse_jwt_missing_err (p : PayloadJson)
    (hmiss : p.email = none ∨ p.email_verified = none ∨ p.user_id = none
      ∨ p.auth_time = none ∨ p.firebase = none) :
    ∃ e, parseJwtPayload p = .error e := by
  cases hp : parseJwtPayload p with
  | error e => exact ⟨e, rfl⟩
  | ok c =>
      obtain ⟨h1, h2, h3, h4, fb, h5⟩ := parse_jwt_ok_fields p c hp
      rcases hmiss with h | h | h | h | h <;> simp_all

/-- C10: the ID-token verification path requires the `email` claim (and the
other required payload fields `email_verified`, `user_id`, `auth_time`,
`firebase`): a token whose payload lacks any of them fails typed decoding and
is rejected with a verification error even when its signature verifies
against the cached key for its kid, the PEM parses, and audience, issuer and
expiry would validate — unlike `name` and `picture`, `email` is not
optional here. -/
theorem id_token_requires_email (project_id kid pem : String)
    (pemParse : PemParse) (p : PayloadJson) (fetch : FetchOutcome)
    (now : Nat) (s : AuthState)
    (hcache : findKey s.id_token_keys kid = some pem)
    (hpem : pemParse pem = .ok ())
    (hmiss : p.email = none ∨ p.email_verified = none ∨ p.user_id = none
      ∨ p.auth_time = none ∨ p.firebase = none) :
    ∃ msg, verify_id_token project_id pemParse (tokenAt kid p pem) fetch now s
      = (.error (.AuthError ("Token verification failed: " ++ msg)), s, 0) := by
  obtain ⟨e, he⟩ := parse_jwt_missing_err p hmiss
  refine ⟨e, ?_⟩
  simp only [verify_id_token, tokenAt, get_id_token_key, hcache, hpem,
    decodeToken, he]
  rw [if_neg (by simp), if_neg (by simp)]

/-- Witness for C10 at a concrete input: an otherwise fully valid payload
whose `email` field is absent. -/
theorem id_token_requires_email_witness :
    findKey stK1.id_token_keys "K1" = some "PEM1" ∧
    pemOkAll "PEM1" = .ok () ∧
    ((idPayloadAt "proj" 1060 1000 none).email = none ∨
      (idPayloadAt "proj" 1060 1000 none).email_verified = none ∨
      (idPayloadAt "proj" 1060 1000 none).user_id = none ∨
      (idPayloadAt "proj" 1060 1000 none).auth_time = none ∨
      (idPayloadAt "proj" 1060 1000 none).firebase = none) ∧
    ∃ msg, verify_id_token "proj" pemOkAll
        (tokenAt "K1" (idPayloadAt "proj" 1060 1000 none) "PEM1")
        (.sendError "net") 1000 stK1
      = (.error (.AuthError ("Token verification failed: " ++ msg)), stK1, 0) :=
  ⟨rfl, rfl, Or.inl rfl,
   id_token_requires_email "proj" "K1" "PEM1" pemOkAll
     (idPayloadAt "proj" 1060 1000 none) (.sendError "net") 1000 stK1
     rfl rfl (Or.inl rfl)⟩

/-- Helper: every error `refresh_id_token_keys` returns is an `AuthError`. -/
theorem refresh_id_keys_err_auth (fetch : FetchOutcome) (s : AuthState)
    (e : AppError) (s' : AuthState)
    (h : refresh_id_token_keys fetch s = (.error e, s')) :
    ∃ m, e = AppError.AuthError m := by
  cases fetch with
  | sendError msg =>
      simp only [refresh_id_token_keys] at h
      injection h with h1 h2
      injection h1 with h1
      exact ⟨_, h1.symm⟩
  | response status body =>
      simp only [refresh_id_token_keys] at h
      split at h
      · cases body with
        | readError msg =>
            injection h with h1 h2; injection h1 with h1; exact ⟨_, h1.symm⟩
        | unparsable msg =>
            injection h with h1 h2; injection h1 with h1; exact ⟨_, h1.symm⟩
        | keyMap keys =>
            injection h with h1 h2; injection h1
      · injection h with h1 h2; injection h1 with h1; exact ⟨_, h1.symm⟩

/-- Helper: every error `refresh_custom_token_keys` returns is an
`AuthError`. -/
theorem refresh_custom_keys_err_auth (fetch : FetchOutcome) (s : AuthState)
    (e : AppError) (s' : AuthState)
    (h : refresh_custom_token_keys fetch s = (.error e, s')) :
    ∃ m, e = AppError.AuthError m := by
  cases fetch with
  | sendError msg =>
      simp only [refresh_custom_token_keys] at h
      injection h with h1 h2
      injection h1 with h1
      exact ⟨_, h1.symm⟩
  | response status body =>
      simp only [refresh_custom_token_keys] at h
      split at h
      · cases body with
        | readError msg =>
            injection h with h1 h2; injection h1 with h1; exact ⟨_, h1.symm⟩
        | unparsable msg =>
            injection h with h1 h2; injection h1 with h1; exact ⟨_, h1.symm⟩
        | keyMap keys =>
            injection h with h1 h2; injection h1
      · injection h with h1 h2; injection h1 with h1; exact ⟨_, h1.symm⟩

/-- Helper: every error `get_id_token_key` returns is an `AuthError`. -/
theorem get_id_token_key_err_auth (kid : String) (fetch : FetchOutcome)
    (s : AuthState) (e : AppError) (s' : AuthState) (n : Nat)
    (h : get_id_token_key kid fetch s = (.error e, s', n)) :
    ∃ m, e = AppError.AuthError m := by
  unfold get_id_token_key at h
  split at h
  · simp at h
  · split at h
    · rename_i e2 s2 heq
      simp at h
      obtain ⟨m, hm⟩ := refresh_id_keys_err_auth fetch s e2 s2 heq
      exact ⟨m, by rw [← h.1]; exact hm⟩
    · split at h
      · simp at h
      · simp at h
        exact ⟨_, h.1.symm⟩

/-- Helper: every error `get_custom_token_key` returns is an `AuthError`. -/
theorem get_custom_token_key_err_auth (kid : String) (fetch : FetchOutcome)
    (s : AuthState) (e : AppError) (s' : AuthState) (n : Nat)
    (h : get_custom_token_key kid fetch s = (.error e, s', n)) :
    ∃ m, e = AppError.AuthError m := by
  unfold get_custom_token_key at h
  split at h
  · simp at h
  · split at h
    · rename_i e2 s2 heq
      simp at h
      obtain ⟨m, hm⟩ := refresh_custom_keys_err_auth fetch s e2 s2 heq
      exact ⟨m, by rw [← h.1]; exact hm⟩
    · split at h
      · simp at h
      · simp at h
        exact ⟨_, h.1.symm⟩

/-- Helper: every error `verify_id_token` returns is an `AuthError`. -/
theorem verify_id_token_err_auth (project_id : String) (pemParse : PemParse)
    (tok : TokenModel) (fetch : FetchOutcome) (now : Nat) (s : AuthState)
    (e : AppError) (s' : AuthState) (n : Nat)
    (h : verify_id_token project_id pemParse tok fetch now s = (.error e, s', n)) :
    ∃ m, e = AppError.AuthError m := by
  unfold verify_id_token at h
  split at h
  · simp at h; exact ⟨_, h.1.symm⟩
  · split at h
    · simp at h; exact ⟨_, h.1.symm⟩
    · split at h
      · rename_i e2 s2 n2 heq
        simp at h
        obtain ⟨m, hm⟩ := get_id_token_key_err_auth _ fetch s e2 s2 n2 heq
        exact ⟨m, by rw [← h.1]; exact hm⟩
      · split at h
        · simp at h; exact ⟨_, h.1.symm⟩
        · split at h
          · simp at h; exact ⟨_, h.1.symm⟩
          · simp at h

/-- Helper: every error `verify_custom_token` returns is an `AuthError`. -/
theorem verify_custom_token_err_auth (project_id : String) (pemParse : PemParse)
    (tok : TokenModel) (fetch : FetchOutcome) (now : Nat) (s : AuthState)
    (e : AppError) (s' : AuthState) (n : Nat)
    (h : verify_custom_token project_id pemParse tok fetch now s = (.error e, s', n)) :
    ∃ m, e = AppError.AuthError m := by
  unfold verify_custom_token at h
  split at h
  · simp at h; exact ⟨_, h.1.symm⟩
  · split at h
    · simp at h; exact ⟨_, h.1.symm⟩
    · split at h
      · rename_i e2 s2 n2 heq
        simp at h
        obtain ⟨m, hm⟩ := get_custom_token_key_err_auth _ fetch s e2 s2 n2 heq
        exact ⟨m, by rw [← h.1]; exact hm⟩
      · split at h
        · simp at h; exact ⟨_, h.1.symm⟩
        · split at h
          · simp at h; exact ⟨_, h.1.symm⟩
          · simp at h

/-- Helper: every error `verify_firebase_token` returns is an `AuthError`. -/
theorem verify_firebase_token_err_auth (project_id : String)
    (pemParse : PemParse) (tok : TokenModel)
    (fetchId fetchCustom : FetchOutcome) (now : Nat) (s : AuthState)
    (e : AppError) (s' : AuthState) (n : Nat)
    (h : verify_firebase_token project_id pemParse tok fetchId fetchCustom now s
      = (.error e, s', n)) :
    ∃ m, e = AppError.AuthError m := by
  unfold verify_firebase_token at h
  split at h
  · simp at h
  · rename_i e1 s1 n1 heq1
    rcases hc : verify_custom_token project_id pemParse tok fetchCustom now s1 with ⟨r, s2, m2⟩
    rw [hc] at h
    cases r with
    | ok u => simp at h
    | error e2 =>
        simp at h
        obtain ⟨m, hm⟩ :=
          verify_custom_token_err_auth project_id pemParse tok fetchCustom now s1 e2 s2 m2 hc
        exact ⟨m, by rw [← h.1]; exact hm⟩

/-- Helper: every error `verify_token` returns is an `AuthError`. -/
theorem verify_token_err_auth (cfg : Config) (headers : HeaderMap)
    (interp : String → TokenModel) (pemParse : PemParse)
    (fetchId fetchCustom : FetchOutcome) (now : Nat) (s : AuthState)
    (e : AppError) (s' : AuthState) (n : Nat)
    (h : verify_token cfg headers interp pemParse fetchId fetchCustom now s
      = (.error e, s', n)) :
    ∃ m, e = AppError.AuthError m := by
  unfold verify_token at h
  split at h
  · simp at h
  · split at h
    · simp at h; exact ⟨_, h.1.symm⟩
    · split at h
      · exact verify_firebase_token_err_auth _ _ _ _ _ _ _ e s' n h
      · simp at h; exact ⟨_, h.1.symm⟩

/-- C9 counterexample: the string placed in the HTTP response body does vary
with internal failure details.  Two complete verification runs that differ
only in the underlying token-library error message produce different
response bodies, each leaking that internal message verbatim. -/
theorem error_response_body_varies :
    bodyOf (c9run "InvalidToken") = some ("Invalid token header: " ++ "InvalidToken")
    ∧ bodyOf (c9run "Base64Error") = some ("Invalid token header: " ++ "Base64Error")
    ∧ bodyOf (c9run "InvalidToken") ≠ bodyOf (c9run "Base64Error") := by
  refine ⟨rfl, rfl, by decide⟩

/-- C9 amended: every failed verification is surfaced to the HTTP caller with
the uniform status 401, but the response body is the specific internal
`AuthError` message itself (which varies with the failing phase and the
underlying library error) rather than a fixed generic description. -/
theorem verify_token_error_response (cfg : Config) (headers : HeaderMap)
    (interp : String → TokenModel) (pemParse : PemParse)
    (fetchId fetchCustom : FetchOutcome) (now : Nat) (s : AuthState)
    (e : AppError) (s' : AuthState) (n : Nat)
    (h : verify_token cfg headers interp pemParse fetchId fetchCustom now s
      = (.error e, s', n)) :
    ∃ m, e = AppError.AuthError m
      ∧ e.into_response = { status := 401, errorField := m } := by
  obtain ⟨m, hm⟩ :=
    verify_token_err_auth cfg headers interp pemParse fetchId fetchCustom now s e s' n h
  exact ⟨m, hm, by rw [hm]; rfl⟩

/-- Witness for the amended C9 at a concrete failing run (malformed header). -/
theorem verify_token_error_response_witness :
    verify_token { firebase_project_id := "p", is_dev := false }
        [("Authorization", HeaderValue.valid "Basic x")] (fun _ => headerErrToken "x")
        pemOkAll (.sendError "net") (.sendError "net") 0 stK1
      = (.error (.AuthError "Invalid authorization header format"), stK1, 0)
    ∧ ∃ m, AppError.AuthError "Invalid authorization header format" = AppError.AuthError m
      ∧ (AppError.AuthError "Invalid authorization header format").into_response
        = { status := 401, errorField := m } :=
  ⟨rfl,
   verify_token_error_response { firebase_project_id := "p", is_dev := false }
     [("Authorization", HeaderValue.valid "Basic x")] (fun _ => headerErrToken "x")
     pemOkAll (.sendError "net") (.sendError "net") 0 stK1
     (.AuthError "Invalid authorization header format") stK1 0 rfl⟩
